import Mathlib

/-!
Shallow embedding of the ESG RAG FastAPI service (`api.py`) and verification
of its specification claims.

Modelling conventions:
* External collaborators imported from the repository's `vector` module
  (`fetch_data_from_table`, `create_vector_store_from_sql_data`,
  `retrieve_relevant_documents_with_scores`, `generate_response_with_rag`,
  `analyze_infographic`) are passed to each handler as explicit function
  parameters; a fallible Python call is a value of `Except String α`
  (`.error e` is a raised exception with message `e`).
* `raise HTTPException(code, detail)` is `Except.error (HTTPError.mk code detail)`.
* The module-level global `vector_store` (initially `None`) is threaded as an
  `Option VectorStore` argument; handlers that may reassign it also return the
  new value of the global.
* FAISS similarity scores are opaque values that `api.py` only passes through
  unchanged, never computes with; they are modelled by `Int`.
* Python `dict` metadata is modelled as an association list.
-/

namespace RAGEsg

/-- Opaque similarity score: `api.py` never performs arithmetic on scores,
it only pairs them with documents, so an abstract comparable type suffices. -/
abbrev Score := Int

/-- A LangChain document as produced by the `vector` module: `page_content`
plus `metadata`. -/
structure Doc where
  page_content : String
  metadata : List (String × String)
deriving DecidableEq, Repr

/-- The FAISS vector store built by `create_vector_store_from_sql_data`:
its chunk contents and the embedding model identifier it was built with.
`api.py` treats it as an opaque handle, so only identity matters here. -/
structure VectorStore where
  chunks : List Doc
  embeddingModel : String
deriving DecidableEq, Repr

/-- `fastapi.HTTPException`: status code plus detail message. -/
structure HTTPError where
  status_code : Nat
  detail : String
deriving DecidableEq, Repr

/-- Pydantic `Query` model of `api.py` (lines 19-23), with its literal
field defaults. -/
structure Query where
  text : String
  top_k : Int := 3
  model : String := "gemini-pro"
  language : String := "English"
deriving DecidableEq, Repr

/-- Pydantic `Document` response model of `api.py` (lines 25-28). -/
structure Document where
  content : String
  metadata : List (String × String)
  score : Option Score
deriving DecidableEq, Repr

/-- Pydantic `Response` model of `api.py` (lines 30-32); `query_rag` always
fills `sources`, so it is modelled as a plain list. -/
structure Response where
  answer : String
  sources : List Document
deriving DecidableEq, Repr

/-- Pydantic `InsightResponse` model of `api.py` (lines 34-35). -/
structure InsightResponse where
  insights : String
deriving DecidableEq, Repr

/-- The JSON body returned by the `/health` endpoint. -/
structure HealthResponse where
  status : String
  vector_store_loaded : Bool
deriving DecidableEq, Repr

/-- The JSON body returned by a successful `/refresh`. -/
structure RefreshSuccess where
  status : String
  message : String
  document_count : Nat
deriving DecidableEq, Repr

/-- The embedding model name hard-coded in `refresh_vector_store`
(`api.py` line 109). -/
def embeddings_model_name : String := "textembedding-gecko@latest"

/-- `get_vector_store` (`api.py` lines 83-86): FastAPI dependency that
rejects the request with a 503 when the global store is `None`. -/
def get_vector_store (store : Option VectorStore) : Except HTTPError VectorStore :=
  match store with
  | none => .error ⟨503, "Vector store is not available"⟩
  | some vs => .ok vs

/-- `health_check` (`api.py` lines 88-96): reads the global `vector_store`
and reports whether it is loaded.  The pair's second component is the value
of the global when the handler returns (the handler never assigns it). -/
def health_check (store : Option VectorStore) : HealthResponse × Option VectorStore :=
  (⟨"healthy", store.isSome⟩, store)

/-- The fixed instruction strings selected by `query.language`
(`api.py` lines 127-131): the recognised tags are the literal strings
used in the source, `"Français"` and `"Arabic"`. -/
def languageInstruction (language : String) : String :=
  if language = "Français" then
    "Réponds toujours en français, quelle que soit la langue de la question."
  else if language = "Arabic" then
    "أجب دائمًا باللغة العربية، بغض النظر عن لغة السؤال."
  else ""

/-- `modified_query` as computed in `query_rag` (`api.py` lines 127-135):
Python's `if system_instruction:` is the non-emptiness test. -/
def modifiedQuery (q : Query) : String :=
  let system_instruction := languageInstruction q.language
  if system_instruction = "" then q.text
  else system_instruction ++ "\n\n" ++ q.text

/-- The source-building loop of `query_rag` (`api.py` lines 139-145):
`sources.append(Document(content=doc.page_content, metadata=doc.metadata,
score=scores[i]))`.  Indexing `scores[i]` raises `IndexError` when `scores`
is shorter than `relevant_docs`, which the surrounding `except` turns into
a 500; otherwise `zip` reproduces the positional pairing. -/
def buildSources (docs : List Doc) (scores : List Score) :
    Except String (List Document) :=
  if scores.length < docs.length then .error "list index out of range"
  else .ok ((docs.zip scores).map fun p => ⟨p.1.page_content, p.1.metadata, some p.2⟩)

/-- `query_rag` (`api.py` lines 119-152).  The `Depends(get_vector_store)`
dependency is resolved before the handler body, outside its `try`, so a 503
raised there is not rewrapped; exceptions raised inside the body become 500s. -/
def query_rag
    (retrieve : String → VectorStore → Int → Except String (List Doc × List Score))
    (generate : String → VectorStore → String → Except String String)
    (store : Option VectorStore) (q : Query) : Except HTTPError Response :=
  match get_vector_store store with
  | .error e => .error e
  | .ok vs =>
    match retrieve q.text vs q.top_k with
    | .error e => .error ⟨500, "Error generating response: " ++ e⟩
    | .ok (relevant_docs, scores) =>
      match generate (modifiedQuery q) vs q.model with
      | .error e => .error ⟨500, "Error generating response: " ++ e⟩
      | .ok content =>
        match buildSources relevant_docs scores with
        | .error e => .error ⟨500, "Error generating response: " ++ e⟩
        | .ok sources => .ok ⟨content, sources⟩

/-- `get_similar_documents` (`api.py` lines 154-172): same retrieval and
source construction as `query_rag`, without the generation call. -/
def get_similar_documents
    (retrieve : String → VectorStore → Int → Except String (List Doc × List Score))
    (store : Option VectorStore) (q : Query) : Except HTTPError (List Document) :=
  match get_vector_store store with
  | .error e => .error e
  | .ok vs =>
    match retrieve q.text vs q.top_k with
    | .error e => .error ⟨500, "Error searching documents: " ++ e⟩
    | .ok (relevant_docs, scores) =>
      match buildSources relevant_docs scores with
      | .error e => .error ⟨500, "Error searching documents: " ++ e⟩
      | .ok result => .ok result

/-- `refresh_vector_store` (`api.py` lines 98-117).  The handler raises
`HTTPException(404)` when `fetch_data_from_table()` returns an empty list —
but `fastapi.HTTPException` subclasses `Exception`, so that raise is caught
by the handler's own `except Exception` clause and re-raised as a 500 whose
detail embeds `str(e)` (starlette renders an `HTTPException` as
`"{status_code}: {detail}"`).  The global is reassigned only on the success
path, after `create_vector_store_from_sql_data` has returned a whole store. -/
def refresh_vector_store (store : Option VectorStore)
    (fetch : Except String (List Doc))
    (build : List Doc → String → Except String VectorStore) :
    Except HTTPError RefreshSuccess × Option VectorStore :=
  match fetch with
  | .error e => (.error ⟨500, "Error refreshing vector store: " ++ e⟩, store)
  | .ok documents =>
    if documents.isEmpty then
      (.error ⟨500, "Error refreshing vector store: 404: No data found in table"⟩, store)
    else
      match build documents embeddings_model_name with
      | .error e => (.error ⟨500, "Error refreshing vector store: " ++ e⟩, store)
      | .ok vs =>
        (.ok ⟨"success", "Vector store refreshed successfully", documents.length⟩, some vs)

/-- State of the per-request uploaded temp file when an `analyze_image`
request finishes. -/
inductive FileState where
  | present
  | absent
deriving DecidableEq, Repr

/-- `analyze_image` (`api.py` lines 174-197).  The upload is copied to a
fresh file under `UPLOAD_DIR`; `analyze_infographic` is the vision-provider
call.  On success the file is unlinked inside an inner `try` whose failure is
only printed (`unlinkOk` models whether `os.unlink` succeeds); when
`analyze_infographic` raises, control jumps to the outer `except` and the
unlink is never reached, so the file is still present when the 500 is
returned. -/
def analyze_image (analyze_infographic : Except String String)
    (unlinkOk : Bool) : Except HTTPError InsightResponse × FileState :=
  match analyze_infographic with
  | .error e => (.error ⟨500, "Error analyzing image: " ++ e⟩, .present)
  | .ok insights => (.ok ⟨insights⟩, if unlinkOk then .absent else .present)

/-- Modelled from the spec: the grounding-context assembly of the Answer
Generator.  `generate_response_with_rag` is defined in the repository's
`vector` module, which is not among the provided source files; spec §4.3
states that it "assembles a grounding context from `retrieved`
(concatenation in the order provided — relevance order)". -/
def assembleContext (retrieved : List (Doc × Score)) : String :=
  String.intercalate "\n\n" (retrieved.map fun p => p.1.page_content)

/-- Modelled from the spec: `generate_response_with_rag` is defined in the
repository's `vector` module, absent from the provided sources (`api.py`
only imports and calls it).  Spec §4.3: the Answer Generator runs the
retrieval step over the store, assembles the grounding context from the
retrieved scored results in the order produced, and "issues one generation
call to the selected model with the original (or instruction-prefixed)
query plus context".  `retrieveStep` is the Retriever, `complete` the
generation-provider call (prompt, model id) ↦ text. -/
def generate_response_with_rag
    (retrieveStep : String → VectorStore → List (Doc × Score))
    (complete : String → String → String)
    (query : String) (vs : VectorStore) (model : String) : String :=
  complete (query ++ "\n\nContext:\n" ++ assembleContext (retrieveStep query vs)) model

/-- Program counter of the refresh operation, one value per region of
`refresh_vector_store` between externally visible actions. -/
inductive RefreshPC where
  | start
  | haveDocs
  | haveStore
  | finished
  | failed
deriving DecidableEq, Repr

/-- Small-step state of a refresh running against the published global:
`storeRef` is the shared global `vector_store` a concurrent reader would
dereference, `docs` and `built` are the refresh handler's locals. -/
structure RefreshState where
  storeRef : Option VectorStore
  pc : RefreshPC
  docs : List Doc
  built : Option VectorStore
deriving DecidableEq, Repr

/-- Atomic steps of `refresh_vector_store` as they act on the shared global:
fetching and building touch only handler locals (the build populates a fresh
structure), and publication is the single reference assignment
`vector_store = create_vector_store_from_sql_data(...)` performed only after
the build has returned a complete store. -/
inductive RefreshStep (fetch : Except String (List Doc))
    (build : List Doc → String → Except String VectorStore) :
    RefreshState → RefreshState → Prop where
  | fetchOk (s : Option VectorStore) (ds : List Doc)
      (hf : fetch = .ok ds) (hne : ds ≠ []) :
      RefreshStep fetch build ⟨s, .start, [], none⟩ ⟨s, .haveDocs, ds, none⟩
  | fetchFail (s : Option VectorStore) (e : String) (hf : fetch = .error e) :
      RefreshStep fetch build ⟨s, .start, [], none⟩ ⟨s, .failed, [], none⟩
  | fetchEmpty (s : Option VectorStore) (hf : fetch = .ok []) :
      RefreshStep fetch build ⟨s, .start, [], none⟩ ⟨s, .failed, [], none⟩
  | buildOk (s : Option VectorStore) (ds : List Doc) (vs : VectorStore)
      (hb : build ds embeddings_model_name = .ok vs) :
      RefreshStep fetch build ⟨s, .haveDocs, ds, none⟩ ⟨s, .haveStore, ds, some vs⟩
  | buildFail (s : Option VectorStore) (ds : List Doc) (e : String)
      (hb : build ds embeddings_model_name = .error e) :
      RefreshStep fetch build ⟨s, .haveDocs, ds, none⟩ ⟨s, .failed, ds, none⟩
  | publish (s : Option VectorStore) (ds : List Doc) (vs : VectorStore) :
      RefreshStep fetch build ⟨s, .haveStore, ds, some vs⟩ ⟨some vs, .finished, ds, some vs⟩

/-- Invariant carried through a refresh run: the published reference is
either the pre-refresh store or a completely built post-refresh store, and
a pending publication can only hold a completely built store. -/
def RefreshInv (fetch : Except String (List Doc))
    (build : List Doc → String → Except String VectorStore)
    (s0 : Option VectorStore) (st : RefreshState) : Prop :=
  (st.storeRef = s0 ∨
    ∃ ds vs, fetch = .ok ds ∧ build ds embeddings_model_name = .ok vs ∧
      st.storeRef = some vs) ∧
  (st.pc = .haveDocs → fetch = .ok st.docs) ∧
  (st.pc = .haveStore →
    ∃ vs, st.built = some vs ∧ fetch = .ok st.docs ∧
      build st.docs embeddings_model_name = .ok vs)

/-- Concrete sample document for exercising the refresh machine. -/
def sampleDoc : Doc := ⟨"Scope 1 emissions fell 10%", [("doc", "A")]⟩

/-- Concrete sample store: the complete build of `[sampleDoc]`. -/
def sampleStore : VectorStore := ⟨[sampleDoc], embeddings_model_name⟩

/-- Claim C1, evaluated at the failing input: when `fetch_data_from_table`
returns an empty sequence, the refresh handler reports status 500, not the
404 the claim (and the handler's own `raise HTTPException(404)`) intends —
the 404 exception is caught by the handler's catch-all `except Exception`
and re-raised as a 500, so the empty-source failure is not distinguishable
from any other failure. -/
theorem refresh_empty_table_reports_500
    (store : Option VectorStore)
    (build : List Doc → String → Except String VectorStore) :
    (refresh_vector_store store (.ok []) build).1 =
      .error ⟨500, "Error refreshing vector store: 404: No data found in table"⟩ :=
  rfl

/-- Claim C6, counterexample: a query that omits the optional fields does
not default to `model="default"` and `language="none"`; the literal defaults
in the `Query` model are `"gemini-pro"` and `"English"`. -/
theorem query_defaults_counterexample :
    ¬ (({ text := "q" } : Query).model = "default" ∧
       ({ text := "q" } : Query).language = "none") := by
  decide

/-- Claim C6, amended: a query that omits the optional fields gets
`top_k = 3`, `model = "gemini-pro"` and `language = "English"`, and the
default language injects no language instruction (the query text reaches
the generator unmodified). -/
theorem query_defaults_amended (t : String) :
    ({ text := t } : Query).top_k = 3 ∧
    ({ text := t } : Query).model = "gemini-pro" ∧
    ({ text := t } : Query).language = "English" ∧
    modifiedQuery { text := t } = t :=
  ⟨rfl, rfl, rfl, rfl⟩

/-- Claim C7: while the global store is `None`, every `/query` and every
`/similar-documents` request is rejected with the 503 raised by the
`get_vector_store` dependency — for every retrieval and generation
function, so the Retriever is never reached and no 500-wrapped
Retriever-level error (and no crash) can occur. -/
theorem uninitialized_store_rejected_503 :
    (∀ (retrieve : String → VectorStore → Int → Except String (List Doc × List Score))
       (generate : String → VectorStore → String → Except String String) (q : Query),
      query_rag retrieve generate none q =
        .error ⟨503, "Vector store is not available"⟩) ∧
    (∀ (retrieve : String → VectorStore → Int → Except String (List Doc × List Score))
       (q : Query),
      get_similar_documents retrieve none q =
        .error ⟨503, "Vector store is not available"⟩) :=
  ⟨fun _ _ _ => rfl, fun _ _ => rfl⟩

/-- Claim C9: the health probe reports exactly whether the index is loaded
(`vector_store is not None`) and leaves the published store reference
unchanged — it never triggers a build or reassigns the global. -/
theorem health_check_reports_and_preserves_store (store : Option VectorStore) :
    (health_check store).1.vector_store_loaded = store.isSome ∧
    (health_check store).1.status = "healthy" ∧
    (health_check store).2 = store :=
  ⟨rfl, rfl, rfl⟩

/-- Claim C10: whenever the refresh handler fails (source fetch raised,
source empty, or build raised), the previously published store is left
unchanged; the global is only reassigned on the success path, after the
build has returned a complete store. -/
theorem refresh_failure_preserves_store
    (store : Option VectorStore) (fetch : Except String (List Doc))
    (build : List Doc → String → Except String VectorStore)
    (e : HTTPError)
    (h : (refresh_vector_store store fetch build).1 = .error e) :
    (refresh_vector_store store fetch build).2 = store := by
  cases hf : fetch with
  | error e2 => simp [refresh_vector_store, hf]
  | ok documents =>
    by_cases hemp : documents.isEmpty
    · simp [refresh_vector_store, hf, hemp]
    · cases hb : build documents embeddings_model_name with
      | error e3 => simp [refresh_vector_store, hf, hemp, hb]
      | ok vs =>
        rw [hf] at h
        simp [refresh_vector_store, hemp, hb] at h

/-- Witness for `refresh_failure_preserves_store`: a refresh whose source
fetch raises leaves the concrete pre-refresh store in place. -/
theorem refresh_failure_preserves_store_witness :
    (refresh_vector_store (some ⟨[⟨"c", []⟩], "m"⟩) (.error "db down")
        (fun ds m => .ok ⟨ds, m⟩)).2 = some ⟨[⟨"c", []⟩], "m"⟩ :=
  refresh_failure_preserves_store _ _ _
    ⟨500, "Error refreshing vector store: db down"⟩ rfl

/-- Claim C5, counterexample: when the vision-provider call raises, the
request exits through the outer `except` with a 500 and the per-request
temp file is still present — it is not released on this exit path. -/
theorem temp_file_not_released_on_vision_failure :
    (analyze_image (.error "vision provider failure") true).2 = .present ∧
    (analyze_image (.error "vision provider failure") true).1 =
      .error ⟨500, "Error analyzing image: vision provider failure"⟩ :=
  ⟨rfl, rfl⟩

/-- Claim C5, amended: the temp file is released exactly on the successful
path (vision call returned and `os.unlink` succeeded); when the vision
provider call fails, the file is not released by the request (it is only
removed by the shutdown cleanup of the upload directory). -/
theorem temp_file_release_characterization
    (result : Except String String) (unlinkOk : Bool) :
    (analyze_image result unlinkOk).2 = .absent ↔
      (∃ insights, result = .ok insights) ∧ unlinkOk = true := by
  cases result <;> cases unlinkOk <;> simp [analyze_image]

/-- Claim C3, counterexample: a query with `language = "French"` is passed
to the generation call unmodified — the tag recognised by the code is the
literal `"Français"`, so the French instruction string is not prepended for
`"French"`, contrary to the claim. -/
theorem language_french_tag_counterexample :
    query_rag (fun _ _ _ => .ok ([], [])) (fun p _ _ => .ok p)
        (some ⟨[], "m"⟩) { text := "q", language := "French" } = .ok ⟨"q", []⟩ ∧
    "q" ≠ languageInstruction "Français" ++ "\n\n" ++ "q" :=
  ⟨rfl, by decide⟩

/-- Claim C3, amended: the languages recognised by the code are the literal
tags `"Français"` and `"Arabic"`; for those tags the corresponding fixed
instruction string is prepended to the query text (separated by a blank
line) before the generation call, and for any other or default tag the
query text is passed to the generator unmodified.  The second conjunct
shows — via a generation function echoing its prompt — that
`modifiedQuery q` is exactly the prompt the generation call receives. -/
theorem language_instruction_prefixing (q : Query) (vs : VectorStore) :
    modifiedQuery q =
      (if q.language = "Français" then
        languageInstruction "Français" ++ "\n\n" ++ q.text
      else if q.language = "Arabic" then
        languageInstruction "Arabic" ++ "\n\n" ++ q.text
      else q.text) ∧
    query_rag (fun _ _ _ => .ok ([], [])) (fun p _ _ => .ok p) (some vs) q =
      .ok ⟨modifiedQuery q, []⟩ := by
  obtain ⟨t, k, m, lang⟩ := q
  constructor
  · by_cases h1 : lang = "Français"
    · subst h1; rfl
    · by_cases h2 : lang = "Arabic"
      · subst h2; rfl
      · simp only [modifiedQuery, languageInstruction, h1, h2, if_false]
        rfl
  · rfl

/-- Inversion of a successful `query_rag` run: the store was published, the
retrieval call was made on the query text and `top_k`, and the returned
sources are exactly the positional pairing of its documents with its
scores. -/
theorem query_rag_ok_sources
    (retrieve : String → VectorStore → Int → Except String (List Doc × List Score))
    (generate : String → VectorStore → String → Except String String)
    (store : Option VectorStore) (q : Query) (r : Response)
    (h : query_rag retrieve generate store q = .ok r) :
    ∃ vs docs scores, store = some vs ∧
      retrieve q.text vs q.top_k = .ok (docs, scores) ∧
      buildSources docs scores = .ok r.sources := by
  cases store with
  | none => exact absurd h (by simp [query_rag, get_vector_store])
  | some vs =>
    simp only [query_rag, get_vector_store] at h
    refine ⟨vs, ?_⟩
    split at h
    · exact absurd h (by simp)
    next relevant_docs scores hr =>
      split at h
      · exact absurd h (by simp)
      next content hg =>
        split at h
        · exact absurd h (by simp)
        next sources hb =>
          refine ⟨relevant_docs, scores, rfl, hr, ?_⟩
          have hres : Response.mk content sources = r := by
            injection h
          rw [← hres]
          exact hb

/-- Claim C4: two query requests that agree on query text, `top_k` and the
current store, and go through the same retrieval and generation functions,
produce identical source lists (documents and scores) whatever their
language tags — the language selection never alters the retrieval step that
produces the sources. -/
theorem sources_independent_of_language
    (retrieve : String → VectorStore → Int → Except String (List Doc × List Score))
    (generate : String → VectorStore → String → Except String String)
    (store : Option VectorStore) (q1 q2 : Query)
    (htext : q1.text = q2.text) (hk : q1.top_k = q2.top_k)
    (r1 r2 : Response)
    (h1 : query_rag retrieve generate store q1 = .ok r1)
    (h2 : query_rag retrieve generate store q2 = .ok r2) :
    r1.sources = r2.sources := by
  obtain ⟨vs1, docs1, scores1, hs1, hr1, hb1⟩ :=
    query_rag_ok_sources retrieve generate store q1 r1 h1
  obtain ⟨vs2, docs2, scores2, hs2, hr2, hb2⟩ :=
    query_rag_ok_sources retrieve generate store q2 r2 h2
  rw [hs1] at hs2
  injection hs2 with hvs
  rw [htext, hk, hvs] at hr1
  rw [hr1] at hr2
  injection hr2 with hpair
  injection hpair with hd hsc
  rw [hd, hsc] at hb1
  rw [hb1] at hb2
  injection hb2

/-- Witness for `sources_independent_of_language`: an English-tagged and a
`"Français"`-tagged request with the same text, `top_k` and store get the
same sources, although their generated answers (prompts) differ. -/
theorem sources_independent_of_language_witness :
    (⟨"q", [⟨"d", [], some 5⟩]⟩ : Response).sources =
      (⟨languageInstruction "Français" ++ "\n\n" ++ "q",
        [⟨"d", [], some 5⟩]⟩ : Response).sources :=
  sources_independent_of_language
    (fun _ _ _ => .ok ([⟨"d", []⟩], [5])) (fun p _ _ => .ok p)
    (some ⟨[], "m"⟩) { text := "q" } { text := "q", language := "Français" }
    rfl rfl _ _ rfl rfl

/-- Positional pairing of documents with their scores succeeds and is the
obvious map when the two lists come unzipped from one list of pairs. -/
theorem buildSources_map (l : List (Doc × Score)) :
    buildSources (l.map Prod.fst) (l.map Prod.snd) =
      .ok (l.map fun p => ⟨p.1.page_content, p.1.metadata, some p.2⟩) := by
  unfold buildSources
  rw [List.length_map, List.length_map, if_neg (lt_irrefl _), List.zip_map']
  simp [List.map_map]

/-- Claim C2: composing `query_rag` with the (spec-modelled) Answer
Generator, every query request issues exactly one generation call whose
prompt is the (possibly instruction-prefixed) query text plus the grounding
context assembled by concatenating the Retriever's scored results in the
order the Retriever produced them; the sources returned to the caller are
the outer retrieval's results in the same order. -/
theorem answer_generator_consumes_retriever_output
    (retrieved : String → VectorStore → Int → List (Doc × Score))
    (retrieveStep : String → VectorStore → List (Doc × Score))
    (complete : String → String → String)
    (vs : VectorStore) (q : Query) :
    query_rag
      (fun t s k => .ok ((retrieved t s k).map Prod.fst, (retrieved t s k).map Prod.snd))
      (fun p s m => .ok (generate_response_with_rag retrieveStep complete p s m))
      (some vs) q =
    .ok ⟨complete (modifiedQuery q ++ "\n\nContext:\n" ++
            assembleContext (retrieveStep (modifiedQuery q) vs)) q.model,
         (retrieved q.text vs q.top_k).map
           fun p => ⟨p.1.page_content, p.1.metadata, some p.2⟩⟩ := by
  simp only [query_rag, get_vector_store, buildSources_map]
  rfl

/-- Every state reachable by a refresh run from the initial configuration
satisfies `RefreshInv`. -/
theorem refresh_inv_of_reachable
    (fetch : Except String (List Doc))
    (build : List Doc → String → Except String VectorStore)
    (s0 : Option VectorStore) (st : RefreshState)
    (h : Relation.ReflTransGen (RefreshStep fetch build) ⟨s0, .start, [], none⟩ st) :
    RefreshInv fetch build s0 st := by
  induction h with
  | refl =>
    refine ⟨Or.inl rfl, ?_, ?_⟩ <;> (intro hpc; simp at hpc)
  | tail hsteps hstep ih =>
    cases hstep with
    | fetchOk s ds hf hne =>
      refine ⟨ih.1, fun _ => hf, ?_⟩
      intro hpc; simp at hpc
    | fetchFail s e hf =>
      refine ⟨ih.1, ?_, ?_⟩ <;> (intro hpc; simp at hpc)
    | fetchEmpty s hf =>
      refine ⟨ih.1, ?_, ?_⟩ <;> (intro hpc; simp at hpc)
    | buildOk s ds vs hb =>
      refine ⟨ih.1, ?_, fun _ => ⟨vs, rfl, ih.2.1 rfl, hb⟩⟩
      intro hpc; simp at hpc
    | buildFail s ds e hb =>
      refine ⟨ih.1, ?_, ?_⟩ <;> (intro hpc; simp at hpc)
    | publish s ds vs =>
      obtain ⟨vs', hbuilt, hf, hb⟩ := ih.2.2 rfl
      have hv : vs = vs' := by simpa using hbuilt
      refine ⟨Or.inr ⟨ds, vs, hf, ?_, rfl⟩, ?_, ?_⟩
      · rw [hv]; exact hb
      · intro hpc; simp at hpc
      · intro hpc; simp at hpc

/-- Claim C8: refresh publishes atomically — in every state reachable while
a refresh runs against the shared global, the published store reference is
either the entire pre-refresh store or the entire post-refresh store (a
complete build of the fetched documents), never anything in between: the
build fills a fresh structure and publication is a single reference
assignment performed only after the build has returned. -/
theorem refresh_publish_atomic
    (fetch : Except String (List Doc))
    (build : List Doc → String → Except String VectorStore)
    (s0 : Option VectorStore) (st : RefreshState)
    (h : Relation.ReflTransGen (RefreshStep fetch build) ⟨s0, .start, [], none⟩ st) :
    st.storeRef = s0 ∨
      ∃ ds vs, fetch = .ok ds ∧ build ds embeddings_model_name = .ok vs ∧
        st.storeRef = some vs :=
  (refresh_inv_of_reachable fetch build s0 st h).1

/-- Witness for `refresh_publish_atomic`: the final state of a complete
concrete refresh run (fetch, build, publish) satisfies the disjunction. -/
theorem refresh_publish_atomic_witness :
    (⟨some sampleStore, .finished, [sampleDoc], some sampleStore⟩ :
        RefreshState).storeRef = none ∨
      ∃ ds vs, (Except.ok [sampleDoc] : Except String (List Doc)) = .ok ds ∧
        (fun ds m => (Except.ok ⟨ds, m⟩ : Except String VectorStore)) ds
            embeddings_model_name = .ok vs ∧
        (⟨some sampleStore, .finished, [sampleDoc], some sampleStore⟩ :
            RefreshState).storeRef = some vs :=
  refresh_publish_atomic (.ok [sampleDoc]) (fun ds m => .ok ⟨ds, m⟩) none _
    (Relation.ReflTransGen.head
      (RefreshStep.fetchOk none [sampleDoc] rfl (by decide))
      (Relation.ReflTransGen.head
        (RefreshStep.buildOk none [sampleDoc] sampleStore rfl)
        (Relation.ReflTransGen.head
          (RefreshStep.publish none [sampleDoc] sampleStore)
          Relation.ReflTransGen.refl)))

end RAGEsg
